/-
Verification development for the rift-lang Fusion Execution Engine
(src/src/interpreter.rs).

The engine is shallowly embedded: the interpreter's pure control flow is
translated directly from the Rust source, external collaborators
(tree-sitter adapters, package managers, toolchain subprocesses, network
deployment clients, the filesystem and the clock) are abstracted behind an
oracle structure `Ext`, and every externally observable interaction of the
interpreter is recorded in an explicit event trace so that claims such as
"the sandbox is not re-invoked on a cache hit" become statements about the
trace.  The content hash used by the artifact cache is the real SHA-256
(the source calls `Sha256::digest` from the `sha2` crate and formats the
digest with `{:x}`), modelled here bit-for-bit on lists of byte values.

HashMaps of the source (`Environment.variables/rifts/tasks/artifact_cache`)
are modelled as association lists whose `upsert` replaces an existing
binding in place and otherwise appends, so iteration order is the
insertion order of first writes; the spec itself flags that the source's
map iteration order is unspecified.

Rust's `i32` literals of the DSL (`AST::Number`) are modelled as `Int`
(the interpreter only ever tests them against zero, so no overflow
arithmetic occurs).  `Program` children, which the source spawns as
concurrent tasks joined with `try_join_all`, are modelled as the
sequential left-to-right schedule: the claims checked here do not concern
interleavings, and the fail-fast join of the source is preserved (the
first child error is the reported error).
-/
import Mathlib

namespace RiftLang

/-! ## SHA-256, modelled from the `sha2` crate's documented algorithm
(FIPS 180-4).  Words are `Nat` reduced mod 2^32 at every operation where
the machine arithmetic wraps; messages are lists of byte values. -/

/-- Reduce to a 32-bit word. -/
def w32 (n : Nat) : Nat := n % 4294967296

/-- 32-bit rotate right. -/
def rotr32 (n x : Nat) : Nat := w32 ((x >>> n) ||| (x <<< (32 - n)))

/-- 32-bit bitwise complement. -/
def not32 (x : Nat) : Nat := x ^^^ 4294967295

/-- SHA-256 Ch function. -/
def chF (x y z : Nat) : Nat := (x &&& y) ^^^ ((not32 x) &&& z)

/-- SHA-256 Maj function. -/
def majF (x y z : Nat) : Nat := (x &&& y) ^^^ (x &&& z) ^^^ (y &&& z)

/-- SHA-256 big sigma 0. -/
def bsig0 (x : Nat) : Nat := (rotr32 2 x) ^^^ (rotr32 13 x) ^^^ (rotr32 22 x)

/-- SHA-256 big sigma 1. -/
def bsig1 (x : Nat) : Nat := (rotr32 6 x) ^^^ (rotr32 11 x) ^^^ (rotr32 25 x)

/-- SHA-256 small sigma 0. -/
def ssig0 (x : Nat) : Nat := (rotr32 7 x) ^^^ (rotr32 18 x) ^^^ (x >>> 3)

/-- SHA-256 small sigma 1. -/
def ssig1 (x : Nat) : Nat := (rotr32 17 x) ^^^ (rotr32 19 x) ^^^ (x >>> 10)

/-- The 64 SHA-256 round constants (decimal). -/
def K256 : List Nat :=
  [1116352408, 1899447441, 3049323471, 3921009573, 961987163, 1508970993,
   2453635748, 2870763221, 3624381080, 310598401, 607225278, 1426881987,
   1925078388, 2162078206, 2614888103, 3248222580, 3835390401, 4022224774,
   264347078, 604807628, 770255983, 1249150122, 1555081692, 1996064986,
   2554220882, 2821834349, 2952996808, 3210313671, 3336571891, 3584528711,
   113926993, 338241895, 666307205, 773529912, 1294757372, 1396182291,
   1695183700, 1986661051, 2177026350, 2456956037, 2730485921, 2820302411,
   3259730800, 3345764771, 3516065817, 3600352804, 4094571909, 275423344,
   430227734, 506948616, 659060556, 883997877, 958139571, 1322822218,
   1537002063, 1747873779, 1955562222, 2024104815, 2227730452, 2361852424,
   2428436474, 2756734187, 3204031479, 3329325298]

/-- The eight 32-bit words of the SHA-256 working state. -/
structure Hash8 where
  a : Nat
  b : Nat
  c : Nat
  d : Nat
  e : Nat
  f : Nat
  g : Nat
  h : Nat

/-- SHA-256 initial hash value. -/
def initH : Hash8 :=
  ⟨1779033703, 3144134277, 1013904242, 2773480762, 1359893119, 2600822924, 528734635, 1541459225⟩

/-- The big-endian 8-byte encoding of a length (in bits). -/
def be64 (n : Nat) : List Nat :=
  [(n >>> 56) % 256, (n >>> 48) % 256, (n >>> 40) % 256, (n >>> 32) % 256,
   (n >>> 24) % 256, (n >>> 16) % 256, (n >>> 8) % 256, n % 256]

/-- SHA-256 padding: append 0x80, zero bytes up to 56 mod 64, then the
message bit length as 8 big-endian bytes. -/
def padMsg (m : List Nat) : List Nat :=
  m ++ [128] ++ List.replicate ((119 - m.length % 64) % 64) 0 ++ be64 (m.length * 8)

/-- Pack bytes into big-endian 32-bit words. -/
def toWords : List Nat → List Nat
  | b0 :: b1 :: b2 :: b3 :: rest => ((b0 <<< 24) ||| (b1 <<< 16) ||| (b2 <<< 8) ||| b3) :: toWords rest
  | _ => []

/-- Extend a 16-word message schedule by `k` further words. -/
def extendSchedule (w : List Nat) : Nat → List Nat
  | 0 => w
  | k + 1 =>
    let i := w.length
    let nw := w32 (ssig1 (w.getD (i - 2) 0) + w.getD (i - 7) 0 + ssig0 (w.getD (i - 15) 0) + w.getD (i - 16) 0)
    extendSchedule (w ++ [nw]) k

/-- One SHA-256 compression round. -/
def roundStep (s : Hash8) (kw : Nat × Nat) : Hash8 :=
  let t1 := w32 (s.h + bsig1 s.e + chF s.e s.f s.g + kw.1 + kw.2)
  let t2 := w32 (bsig0 s.a + majF s.a s.b s.c)
  ⟨w32 (t1 + t2), s.a, s.b, s.c, w32 (s.d + t1), s.e, s.f, s.g⟩

/-- Compress one 64-byte block into the running state. -/
def compressBlock (st : Hash8) (block : List Nat) : Hash8 :=
  let ws := extendSchedule (toWords block) 48
  let r := (K256.zip ws).foldl roundStep st
  ⟨w32 (st.a + r.a), w32 (st.b + r.b), w32 (st.c + r.c), w32 (st.d + r.d),
   w32 (st.e + r.e), w32 (st.f + r.f), w32 (st.g + r.g), w32 (st.h + r.h)⟩

/-- Split a byte list into 64-byte blocks. -/
def blocks : List Nat → List (List Nat)
  | [] => []
  | x :: rest => (x :: rest).take 64 :: blocks ((x :: rest).drop 64)
termination_by l => l.length
decreasing_by simp [List.length_drop]; omega

/-- The eight final state words of SHA-256 over a byte list. -/
def sha256Words (m : List Nat) : List Nat :=
  let fin := (blocks (padMsg m)).foldl compressBlock initH
  [fin.a, fin.b, fin.c, fin.d, fin.e, fin.f, fin.g, fin.h]

/-- A lowercase hex digit. -/
def hexDigitChar (n : Nat) : Char :=
  if n < 10 then Char.ofNat (48 + n) else Char.ofNat (87 + n)

/-- Fixed-width lowercase hex rendering of a `Nat` (most significant digit
first), as produced for each digest word by Rust's `{:x}` formatting of a
`Sha256` digest. -/
def toHexFixed : Nat → Nat → List Char
  | 0, _ => []
  | w + 1, n => toHexFixed w (n / 16) ++ [hexDigitChar (n % 16)]

/-- The UTF-8 bytes of a string (the source hashes `code.as_bytes()`). -/
def utf8Bytes (s : String) : List Nat := s.toUTF8.toList.map (fun b => b.toNat)

/-- `format!("{:x}", Sha256::digest(code.as_bytes()))` of interpreter.rs
line 51: the 64-character lowercase hex digest of the snippet text. -/
def sha256hex (s : String) : String :=
  String.mk (((sha256Words (utf8Bytes s)).map (toHexFixed 8)).flatten)

/-! ## Data model (main.rs `enum AST`, interpreter.rs `struct Environment`) -/

/-- The AST consumed by the engine (main.rs lines 21-35).  `Deploy`'s
`HashMap<String, String>` config and the `Environment` maps are modelled
as association lists. -/
inductive AST where
  | program (nodes : List AST)
  | rift (name : String) (body : List AST)
  | fuse (language code : String)
  | task (name : String) (body : List AST)
  | target (language : String)
  | deploy (targetSelector : String) (config : List (String × String))
  | letS (name : String) (value : AST)
  | call (name : String) (args : List AST)
  | ifS (cond : AST) (thenBody elseBody : List AST)
  | whileS (cond : AST) (body : List AST)
  | number (n : Int)
  | string (s : String)
  | identifier (id : String)

/-- `HashMap::get`: first (only) binding of a key in an association list. -/
def lookupA {α : Type} (k : String) : List (String × α) → Option α
  | [] => none
  | p :: rest => if k = p.1 then some p.2 else lookupA k rest

/-- `HashMap::insert`: replace an existing binding in place, or append. -/
def upsert {α : Type} (k : String) (v : α) : List (String × α) → List (String × α)
  | [] => [(k, v)]
  | p :: rest => if k = p.1 then (k, v) :: rest else p :: upsert k v rest

/-- interpreter.rs lines 27-34: the mutable interpretation environment.
The source's `variables` field is named `vars` here because `variables`
is reserved in Lean. -/
structure Env where
  vars : List (String × AST)
  rifts : List (String × List AST)
  tasks : List (String × List AST)
  artifact_cache : List (String × String)
  target_lang : Option String

/-- The empty environment of a fresh session. -/
def envEmpty : Env := ⟨[], [], [], [], none⟩

/-- Observable interactions with the world outside the interpreter's own
state: one event is recorded at each point where the source calls out to
the dependency resolver, a package manager, the sandboxed execution
adapter, a deployment sink, or starts one pass of a `While` body. -/
inductive Event where
  | resolveDeps (lang code : String)
  | installDep (lang dep : String)
  | execute (lang code : String)
  | whileBody
  | deployAttempt (target : String)
  | clientCall (target : String) (attempt : Nat)
deriving DecidableEq

/-- Outcomes of the external collaborators (tree-sitter trees, package
managers, toolchains, network clients, filesystem, clock), which the spec
places outside the core.  `sinkCall target k` is the outcome of the k-th
fallible client call a deployment sink makes during one invocation. -/
structure Ext where
  tsDeps : String → String → List String
  installOk : String → String → Except String Unit
  execOut : String → String → Except String String
  sinkCall : String → Nat → Except String Unit
  parseRegion : String → Except String Unit
  readFile : String → Except String String
  writeFile : String → String → Except String Unit
  now : Nat

/-- An oracle whose external calls all succeed trivially. -/
def extUnit : Ext :=
  ⟨fun _ _ => [], fun _ _ => .ok (), fun _ _ => .ok "", fun _ _ => .ok (),
   fun _ => .ok (), fun _ => .ok "", fun _ _ => .ok (), 0⟩

/-- Result of interpreting one node: the source's `Result<(), String>`,
the updated environment, and the trace of external interactions.  `none`
is fuel exhaustion of the step-indexed model, never a behaviour of the
source. -/
abbrev IResult := Except String Unit × Env × List Event

/-! ## Pure helpers of the interpreter -/

/-- Rust's `str::contains`: `pat` occurs as a contiguous substring. -/
def strContains (s pat : String) : Bool := decide (pat.data <:+: s.data)

/-- The languages with a registered tree-sitter adapter: the `match lang`
arms of `resolve_deps` (interpreter.rs lines 128-136), repeated verbatim
in `execute_with_deps` (lines 161-169) and `optimize_code` (lines
340-348). -/
def hasAdapter (lang : String) : Bool :=
  ["python", "javascript", "js", "go", "cpp", "java", "php"].contains lang

/-- The artifact-cache key of a `Fuse(lang, code)` node (interpreter.rs
line 51): the hex SHA-256 digest of the snippet text alone; the language
tag does not enter the hash. -/
def fuseKey (_lang code : String) : String := sha256hex code

/-- interpreter.rs lines 574-581. -/
def evaluate_expression (ast : AST) (env : Env) : Except String AST :=
  match ast with
  | .number n => .ok (.number n)
  | .string s => .ok (.string s)
  | .identifier id =>
    match lookupA id env.vars with
    | some v => .ok v
    | none => .error ("Variable \x27" ++ id ++ "\x27 not found")
  | _ => .error "Invalid expression"

/-- interpreter.rs lines 583-588. -/
def evaluate_condition (ast : AST) (_env : Env) : Except String Bool :=
  match ast with
  | .number n => .ok (n != 0)
  | _ => .error "Invalid condition"

/-- interpreter.rs lines 126-142: fail for a language without an adapter,
otherwise the import names tree-sitter finds (external, via the oracle). -/
def resolve_deps (ext : Ext) (lang code : String) : Except String (List String) :=
  if hasAdapter lang then .ok (ext.tsDeps lang code)
  else .error ("Unsupported language: " ++ lang)

/-- interpreter.rs lines 144-157: install each dependency in order with
the language's package manager; only python, javascript and java have
one (every other language `continue`s without invoking anything); the
first failure aborts. -/
def install_deps (ext : Ext) (lang : String) : List String → Except String Unit × List Event
  | [] => (.ok (), [])
  | dep :: rest =>
    if ["python", "javascript", "java"].contains lang then
      match ext.installOk lang dep with
      | .error e => (.error e, [.installDep lang dep])
      | .ok _ =>
        let r := install_deps ext lang rest
        (r.1, .installDep lang dep :: r.2)
    else install_deps ext lang rest

/-- interpreter.rs lines 159-248: the sandboxed execution adapter.  The
first `match lang` (lines 161-169) rejects any language without a
tree-sitter adapter — note this list has no "rust" arm, so the `"rust"`
execution arm at lines 189-196 is unreachable.  The per-language
toolchain probing, dependency installation, temp-file lifecycle and child
process are external and collapse into the oracle's `execOut` outcome. -/
def execute_with_deps (ext : Ext) (lang code : String) : Except String String × List Event :=
  if hasAdapter lang then (ext.execOut lang code, [.execute lang code])
  else (.error ("Unsupported language: " ++ lang), [])

/-! ## The code transformation templates (interpreter.rs lines 461-572).
Each is a fixed template string, with conditional segments keyed on
substring tests of the source snippet; the tree-sitter `root` parameter of
the source is ignored by every template and omitted here. -/

/-- interpreter.rs line 461: the `transform_php_to_rust` template, a pure
function of the snippet text. -/
def transform_php_to_rust (code : String) : String :=
  "use std::fs;\nfn main() \x7b\n" ++ (if strContains code "uploadFile" then "    let source_path = \"input.txt\";\n    let target_path = \"uploads/input.txt\";\n    if fs::metadata(source_path).is_ok() \x7b\n        if fs::copy(source_path, target_path).is_ok() \x7b\n            println!(\"Uploaded \x7b\x7d to \x7b\x7d\", source_path, target_path);\n        \x7d else \x7b\n            println!(\"Upload failed\");\n        \x7d\n    \x7d else \x7b\n        println!(\"File not found: \x7b\x7d\", source_path);\n    \x7d\n" else "") ++ "\x7d\n"

/-- interpreter.rs line 471: the `transform_js_to_rust` template, a pure
function of the snippet text. -/
def transform_js_to_rust (code : String) : String :=
  "use tokio::time::\x7bsleep, Duration\x7d;\n#[tokio::main]\nasync fn main() \x7b\n" ++ (if strContains code "setTimeout" then "    tokio::spawn(async move \x7b\n        sleep(Duration::from_millis(100)).await;\n        tokio::spawn(async move \x7b\n            sleep(Duration::from_millis(100)).await;\n            println!(\"Deep\");\n        \x7d);\n    \x7d);\n    sleep(Duration::from_millis(300)).await;\n" else "") ++ "\x7d\n"

/-- interpreter.rs line 481: the `transform_python_to_rust` template, a pure
function of the snippet text. -/
def transform_python_to_rust (code : String) : String :=
  "use tch::\x7bTensor, nn\x7d;\nuse tokio::time::\x7bsleep, Duration\x7d;\n#[tokio::main]\nasync fn main() \x7b\n" ++ (if strContains code "asyncio" then "    tokio::spawn(async move \x7b\n        sleep(Duration::from_millis(100)).await;\n        println!(\"Async\");\n    \x7d);\n    sleep(Duration::from_millis(200)).await;\n" else "") ++ (if strContains code "tf.matmul" then "    let matrix1 = Tensor::of_slice(&[1.0, 2.0, 3.0, 4.0]).view([2, 2]);\n    let matrix2 = Tensor::of_slice(&[5.0, 6.0, 7.0, 8.0]).view([2, 2]);\n    let product = matrix1.matmul(&matrix2);\n    println!(\"\x7b:?\x7d\", product);\n" else "") ++ "\x7d\n"

/-- interpreter.rs line 494: the `transform_go_to_rust` template, a pure
function of the snippet text. -/
def transform_go_to_rust (code : String) : String :=
  "fn main() \x7b\n" ++ (if strContains code "log.Println" then "    println!(\"Kubernetes node started\");\n" else "") ++ "\x7d\n"

/-- interpreter.rs line 504: the `transform_cpp_to_rust` template, a pure
function of the snippet text. -/
def transform_cpp_to_rust (code : String) : String :=
  "#[derive(Debug)]\nstruct Vector3D \x7b x: f64, y: f64, z: f64 \x7d\nfn add_vectors(v1: Vector3D, v2: Vector3D) -> Vector3D \x7b\n    Vector3D \x7b x: v1.x + v2.x, y: v1.y + v2.y, z: v1.z + v2.z \x7d\n\x7d\nfn main() \x7b\n" ++ (if strContains code "addVectors" then "    let v1 = Vector3D \x7b x: 1.0, y: 2.0, z: 3.0 \x7d;\n    let v2 = Vector3D \x7b x: 4.0, y: 5.0, z: 6.0 \x7d;\n    let result = add_vectors(v1, v2);\n    println!(\"Result: \x7b\x7d, \x7b\x7d, \x7b\x7d\", result.x, result.y, result.z);\n" else "") ++ "\x7d\n"

/-- interpreter.rs line 514: the `transform_php_to_python` template, a pure
function of the snippet text. -/
def transform_php_to_python (_code : String) : String :=
  "import os\n\ndef upload_file(source_path, target_path):\n    if os.path.exists(source_path):\n        os.makedirs(os.path.dirname(target_path), exist_ok=True)\n        with open(source_path, \x27rb\x27) as src, open(target_path, \x27wb\x27) as dst:\n            dst.write(src.read())\n        print(f\"Uploaded \x7bsource_path\x7d to \x7btarget_path\x7d\")\n    else:\n        print(f\"File not found: \x7bsource_path\x7d\")\n\nif __name__ == \"__main__\":\n    upload_file(\"input.txt\", \"uploads/input.txt\")\n"

/-- interpreter.rs line 520: the `transform_js_to_python` template, a pure
function of the snippet text. -/
def transform_js_to_python (_code : String) : String :=
  "import watchdog.events\nimport watchdog.observers\nclass Handler(watchdog.events.FileSystemEventHandler):\n    def on_any_event(self, event):\n        print(f\"\x7bevent.src_path\x7d changed: \x7bevent.event_type\x7d\")\n\nif __name__ == \"__main__\":\n    from time import sleep\n    observer = watchdog.observers.Observer()\n    observer.schedule(Handler(), path=\"input.txt\")\n    observer.start()\n    print(\"Watching input.txt...\")\n    sleep(2)\n    observer.stop()\n    observer.join()\n"

/-- interpreter.rs line 526: the `transform_python_to_js` template, a pure
function of the snippet text. -/
def transform_python_to_js (_code : String) : String :=
  "const tf = require(\x27@tensorflow/tfjs\x27);\nasync function main() \x7b\n    const matrix1 = tf.tensor2d([[1, 2], [3, 4]]);\n    const matrix2 = tf.tensor2d([[5, 6], [7, 8]]);\n    const product = matrix1.matMul(matrix2);\n    console.log(await product.array());\n\x7d\nmain();\n"

/-- interpreter.rs line 532: the `transform_go_to_js` template, a pure
function of the snippet text. -/
def transform_go_to_js (_code : String) : String :=
  "console.log(\"Kubernetes node started\");\n"

/-- interpreter.rs line 538: the `transform_cpp_to_js` template, a pure
function of the snippet text. -/
def transform_cpp_to_js (_code : String) : String :=
  "class Vector3D \x7b\n    constructor(x, y, z) \x7b\n        this.x = x;\n        this.y = y;\n        this.z = z;\n    \x7d\n\x7d\nfunction addVectors(v1, v2) \x7b\n    return new Vector3D(v1.x + v2.x, v1.y + v2.y, v1.z + v2.z);\n\x7d\nconst v1 = new Vector3D(1, 2, 3);\nconst v2 = new Vector3D(4, 5, 6);\nconst result = addVectors(v1, v2);\nconsole.log(\x60Result: \x24\x7bresult.x\x7d, \x24\x7bresult.y\x7d, \x24\x7bresult.z\x7d\x60);\n"

/-- interpreter.rs line 544: the `transform_php_to_java` template, a pure
function of the snippet text. -/
def transform_php_to_java (_code : String) : String :=
  "import java.io.*; import java.nio.file.*;\npublic class FileUploader \x7b\n    public static void main(String[] args) \x7b\n        String sourcePath = \"input.txt\";\n        String targetPath = \"uploads/input.txt\";\n        File source = new File(sourcePath);\n        if (source.exists()) \x7b\n            try \x7b\n                Files.copy(source.toPath(), new File(targetPath).toPath(), StandardCopyOption.REPLACE_EXISTING);\n                System.out.println(\"Uploaded \" + sourcePath + \" to \" + targetPath);\n            \x7d catch (IOException e) \x7b\n                System.out.println(\"Upload failed\");\n            \x7d\n        \x7d else \x7b\n            System.out.println(\"File not found: \" + sourcePath);\n        \x7d\n    \x7d\n\x7d\n"

/-- interpreter.rs line 550: the `transform_js_to_java` template, a pure
function of the snippet text. -/
def transform_js_to_java (_code : String) : String :=
  "import java.nio.file.*;\nimport java.util.concurrent.*;\npublic class FileWatcher \x7b\n    public static void main(String[] args) throws Exception \x7b\n        WatchService watcher = FileSystems.getDefault().newWatchService();\n        Path dir = Paths.get(\".\");\n        dir.register(watcher, StandardWatchEventKinds.ENTRY_MODIFY);\n        System.out.println(\"Watching input.txt...\");\n        ScheduledExecutorService executor = Executors.newSingleThreadScheduledExecutor();\n        executor.schedule(() -> System.exit(0), 2, TimeUnit.SECONDS);\n        while (true) \x7b\n            WatchKey key = watcher.take();\n            for (WatchEvent<?> event : key.pollEvents()) \x7b\n                System.out.println(\"input.txt changed: \" + event.kind());\n            \x7d\n            key.reset();\n        \x7d\n    \x7d\n\x7d\n"

/-- interpreter.rs line 556: the `transform_python_to_java` template, a pure
function of the snippet text. -/
def transform_python_to_java (_code : String) : String :=
  "import org.tensorflow.*;\npublic class MatrixMath \x7b\n    public static void main(String[] args) \x7b\n        try (Graph g = new Graph(); Session s = new Session(g)) \x7b\n            float[][] m1 = \x7b\x7b1, 2\x7d, \x7b3, 4\x7d\x7d;\n            float[][] m2 = \x7b\x7b5, 6\x7d, \x7b7, 8\x7d\x7d;\n            Tensor<?> t1 = Tensor.create(m1);\n            Tensor<?> t2 = Tensor.create(m2);\n            g.opBuilder(\"MatMul\", \"MatMul\").addInput(t1).addInput(t2).build();\n            Tensor<?> output = s.runner().fetch(\"MatMul\").run().get(0);\n            float[][] result = output.copyTo(new float[2][2]);\n            System.out.println(\"[[\" + result[0][0] + \", \" + result[0][1] + \"], [\" + result[1][0] + \", \" + result[1][1] + \"]]\");\n        \x7d\n    \x7d\n\x7d\n"

/-- interpreter.rs line 562: the `transform_go_to_java` template, a pure
function of the snippet text. -/
def transform_go_to_java (_code : String) : String :=
  "public class Logger \x7b\n    public static void main(String[] args) \x7b\n        System.out.println(\"Kubernetes node started\");\n    \x7d\n\x7d\n"

/-- interpreter.rs line 568: the `transform_cpp_to_java` template, a pure
function of the snippet text. -/
def transform_cpp_to_java (_code : String) : String :=
  "public class Vector3D \x7b\n    double x, y, z;\n    Vector3D(double x, double y, double z) \x7b\n        this.x = x;\n        this.y = y;\n        this.z = z;\n    \x7d\n    static Vector3D addVectors(Vector3D v1, Vector3D v2) \x7b\n        return new Vector3D(v1.x + v2.x, v1.y + v2.y, v1.z + v2.z);\n    \x7d\n    public static void main(String[] args) \x7b\n        Vector3D v1 = new Vector3D(1, 2, 3);\n        Vector3D v2 = new Vector3D(4, 5, 6);\n        Vector3D result = addVectors(v1, v2);\n        System.out.println(\"Result: \" + result.x + \", \" + result.y + \", \" + result.z);\n    \x7d\n\x7d\n"

/-- Modelled from the spec: `transform_go_to_python` is called at
interpreter.rs line 391 but defined nowhere under src/; the spec (sections
1 and 6) treats per-pair transformation templates as an opaque external
capability that merely produces some translated code, so this missing
template is modelled as a fixed template string. -/
def transform_go_to_python (_code : String) : String :=
  "print(\"Kubernetes node started\")\n"

/-- Modelled from the spec: `transform_cpp_to_python` is called at
interpreter.rs line 396 but defined nowhere under src/; modelled like
`transform_go_to_python` as a fixed template string. -/
def transform_cpp_to_python (_code : String) : String :=
  "def add_vectors(v1, v2):\n    return [a + b for a, b in zip(v1, v2)]\n"

/-- Modelled from the spec: `transform_php_to_js` is called at
interpreter.rs line 401 but defined nowhere under src/; modelled like
`transform_go_to_python` as a fixed template string. -/
def transform_php_to_js (_code : String) : String :=
  "console.log(\"upload\");\n"

/-! ## The optimize path (interpreter.rs lines 330-459) -/

/-- The (source language, target language) pairs handled by the match at
interpreter.rs lines 353-445, each producing the translated snippet of
the corresponding template; any other pair falls to the `_` arm.  In
every handled arm the replacement node's language tag is exactly the
target language of the pair. -/
def transformFor (lang targetLang code : String) : Option String :=
  match lang, targetLang with
  | "php", "rust" => some (transform_php_to_rust code)
  | "javascript", "rust" => some (transform_js_to_rust code)
  | "python", "rust" => some (transform_python_to_rust code)
  | "go", "rust" => some (transform_go_to_rust code)
  | "cpp", "rust" => some (transform_cpp_to_rust code)
  | "php", "python" => some (transform_php_to_python code)
  | "javascript", "python" => some (transform_js_to_python code)
  | "go", "python" => some (transform_go_to_python code)
  | "cpp", "python" => some (transform_cpp_to_python code)
  | "php", "javascript" => some (transform_php_to_js code)
  | "python", "javascript" => some (transform_python_to_js code)
  | "go", "javascript" => some (transform_go_to_js code)
  | "cpp", "javascript" => some (transform_cpp_to_js code)
  | "php", "java" => some (transform_php_to_java code)
  | "javascript", "java" => some (transform_js_to_java code)
  | "python", "java" => some (transform_python_to_java code)
  | "go", "java" => some (transform_go_to_java code)
  | "cpp", "java" => some (transform_cpp_to_java code)
  | _, _ => none

/-- The body-rewriting loop of `optimize_code` (interpreter.rs lines
337-449).  A `Fuse` child whose language has no tree-sitter adapter hits
the `_ => continue` arm at line 347 and is dropped from the optimized
body; a `Fuse` child with an adapter is replaced when the language pair
is handled and pushed unchanged otherwise; a non-`Fuse` child is pushed
unchanged. -/
def optimizeBody (targetLang : String) : List AST → List AST
  | [] => []
  | node :: rest =>
    match node with
    | .fuse lang code =>
      if hasAdapter lang then
        match transformFor lang targetLang code with
        | some newCode => .fuse targetLang newCode :: optimizeBody targetLang rest
        | none => .fuse lang code :: optimizeBody targetLang rest
      else optimizeBody targetLang rest
    | _ => node :: optimizeBody targetLang rest

/-- interpreter.rs lines 330-459: `optimize_code`.  Requires a `Rift`
argument; the optimized body is stored under `"optimized_" + name` and
nothing else in the environment changes. -/
def optimize_code (ast : AST) (env : Env) : Except String Env :=
  match ast with
  | .rift name body =>
    let targetLang := env.target_lang.getD "rust"
    .ok { env with rifts := upsert ("optimized_" ++ name) (optimizeBody targetLang body) env.rifts }
  | _ => .error "Optimization requires a rift"

/-! ## The deploy compiler (interpreter.rs lines 590-605) -/

/-- How one `Fuse` snippet is rendered into the deployment payload
(interpreter.rs lines 595-600): the cached output when the snippet's
content hash is in the artifact cache, otherwise `language: code`. -/
def renderFuse (cache : List (String × String)) (lang code : String) : String :=
  match lookupA (fuseKey lang code) cache with
  | some cached => cached
  | none => lang ++ ": " ++ code

/-- interpreter.rs lines 590-605: `compile_rift`, written as the source's
accumulating loop over every stored rift body.  The source function
returns `Result` but has no failing path. -/
def compile_rift (env : Env) : String :=
  String.intercalate "\n"
    (env.rifts.foldl
      (fun acc p =>
        p.2.foldl
          (fun acc2 node =>
            match node with
            | .fuse lang code => acc2 ++ [renderFuse env.artifact_cache lang code]
            | _ => acc2)
          acc)
      [])

/-- The deployment payload as the spec words it (section 3): every `Fuse`
snippet across every stored rift, rendered and newline-joined in rift
iteration order. -/
def compileRiftSpec (env : Env) : String :=
  String.intercalate "\n"
    ((env.rifts.map
      (fun p => p.2.filterMap
        (fun node =>
          match node with
          | .fuse lang code => some (renderFuse env.artifact_cache lang code)
          | _ => none))).flatten)

/-- interpreter.rs lines 326-328: the identity placeholder compression. -/
def compress_artifact (artifact : String) : String := artifact

/-! ## The deployment orchestrator (interpreter.rs lines 262-324, 73-87) -/

/-- interpreter.rs lines 262-324: `deploy_to_target`.  Although the
source wraps the dispatch in `loop` with an `attempts` counter, every arm
of the `match target` either `break`s (success, or unsupported target) or
returns early through `?` (missing config key, failed client call), so
the `attempts += 1`, the retry ceiling test and the backoff `sleep` at
lines 320-322 are unreachable: the function performs exactly one attempt,
and every fallible client call is the 0th (and only) call consulted. -/
def deploy_to_target (ext : Ext) (target artifact : String)
    (config : List (String × String)) : Except String Unit × List Event :=
  if target = "ethereum" then
    match lookupA "api_key" config with
    | none => (.error "Missing Ethereum API key", [])
    | some _ =>
      match lookupA "contract" config with
      | none => (.error "Missing contract address", [])
      | some _ =>
        match ext.sinkCall "ethereum" 0 with
        | .error e => (.error ("Ethereum connection failed: " ++ e), [.clientCall "ethereum" 0])
        | .ok _ => (.ok (), [.clientCall "ethereum" 0])
  else if target = "solana" then
    match lookupA "rpc_url" config with
    | none => (.error "Missing Solana RPC URL", [])
    | some _ =>
      match lookupA "program_id" config with
      | none => (.error "Missing Solana program ID", [])
      | some _ => (.ok (), [.clientCall "solana" 0])
  else if target = "aws" then
    match lookupA "region" config with
    | none => (.error "Missing AWS region", [])
    | some region =>
      match ext.parseRegion region with
      | .error e => (.error ("Invalid region: " ++ e), [])
      | .ok _ =>
        match lookupA "bucket" config with
        | none => (.error "Missing S3 bucket", [])
        | some _ =>
          match lookupA "function" config with
          | none => (.error "Missing Lambda function name", [])
          | some _ =>
            match lookupA "role" config with
            | none => (.error "Missing IAM role ARN", [])
            | some _ =>
              match ext.readFile artifact with
              | .error e => (.error ("Artifact not found: " ++ e), [])
              | .ok _ =>
                match ext.sinkCall "aws" 0 with
                | .error e => (.error ("S3 upload failed: " ++ e), [.clientCall "aws" 0])
                | .ok _ =>
                  match ext.sinkCall "aws" 1 with
                  | .error e =>
                    (.error ("Lambda creation failed: " ++ e), [.clientCall "aws" 0, .clientCall "aws" 1])
                  | .ok _ => (.ok (), [.clientCall "aws" 0, .clientCall "aws" 1])
  else if target = "local" then
    match ext.writeFile ("rift_power_" ++ toString ext.now) artifact with
    | .error e => (.error e, [.clientCall "local" 0])
    | .ok _ => (.ok (), [.clientCall "local" 0])
  else (.error ("Unsupported target: " ++ target), [])

/-- The four known deployment sinks, in the order the source spawns them
(interpreter.rs lines 76-80). -/
def deployTargets : List String := ["ethereum", "solana", "aws", "local"]

/-- The selection predicate of interpreter.rs lines 81-84: every sink for
selector `"all"`, otherwise the sinks whose name is a substring of the
selector. -/
def selectedSinks (target : String) : List String :=
  deployTargets.filter (fun name => (target == "all") || strContains target name)

/-- Run the selected sinks.  Each selected sink is an independently
spawned task, so every one of them runs to its own completion; the
`try_join_all` of line 85 reports the first error in order.  One
`deployAttempt` event marks each sink attempted. -/
def runDeploys (ext : Ext) (artifact : String) (config : List (String × String)) :
    List String → Except String Unit × List Event
  | [] => (.ok (), [])
  | t :: rest =>
    let r1 := deploy_to_target ext t artifact config
    let r2 := runDeploys ext artifact config rest
    ((match r1.1 with | .error e => .error e | .ok _ => r2.1),
     (.deployAttempt t :: r1.2) ++ r2.2)

/-- The whole `Deploy` arm after compilation and compression: fan out to
the selected sinks. -/
def deployRun (ext : Ext) (target artifact : String)
    (config : List (String × String)) : Except String Unit × List Event :=
  runDeploys ext artifact config (selectedSinks target)

/-- The sinks attempted according to a trace. -/
def attempted (evs : List Event) : List String :=
  evs.filterMap (fun e => match e with | .deployAttempt t => some t | _ => none)

/-! ## The interpreter (interpreter.rs lines 36-124), step-indexed.
`interpret ext fuel` interprets one node with recursion depth at most
`fuel`; `none` means the fuel ran out, never a source behaviour. -/

/-- Sequential interpretation of a `Program`'s children against the
shared environment, failing fast on the first child error, with traces
concatenated. -/
def interpSeq (self : AST → Env → Option IResult) : List AST → Env → Option IResult
  | [], env => some (.ok (), env, [])
  | node :: rest, env =>
    match self node env with
    | none => none
    | some (.error e, env', evs) => some (.error e, env', evs)
    | some (.ok _, env', evs) =>
      match interpSeq self rest env' with
      | none => none
      | some (r, env'', evs') => some (r, env'', evs ++ evs')

/-- The `While` loop of interpreter.rs lines 113-121: re-evaluate the
condition, run the body, increment `iterations`, and fail with the
iteration-limit error once the counter exceeds 10000 — which happens
after the body has already run for the 10001st time.  One `whileBody`
event marks each pass over the body. -/
def whileAux (runBody : Env → Option IResult) (cond : AST) (iterations : Nat) (env : Env) :
    Option IResult :=
  match evaluate_condition cond env with
  | .error e => some (.error e, env, [])
  | .ok false => some (.ok (), env, [])
  | .ok true =>
    match runBody env with
    | none => none
    | some (.error e, env', evs) => some (.error e, env', .whileBody :: evs)
    | some (.ok _, env', evs) =>
      if _h1 : iterations + 1 > 10000 then
        some (.error "Max iterations exceeded", env', .whileBody :: evs)
      else
        match whileAux runBody cond (iterations + 1) env' with
        | none => none
        | some (r, env'', evs') => some (r, env'', .whileBody :: evs ++ evs')
termination_by 10001 - iterations
decreasing_by omega

/-- One interpretation layer over the recursive interpreter `self` for
subtrees: the `match ast` of interpreter.rs lines 37-123. -/
def interpStep (ext : Ext) (self : AST → Env → Option IResult) (ast : AST) (env : Env) :
    Option IResult :=
  match ast with
  | .program nodes => interpSeq self nodes env
  | .rift name body => some (.ok (), { env with rifts := upsert name body env.rifts }, [])
  | .fuse lang code =>
    let hash := fuseKey lang code
    match lookupA hash env.artifact_cache with
    | some _ => some (.ok (), env, [])
    | none =>
      match resolve_deps ext lang code with
      | .error e => some (.error e, env, [.resolveDeps lang code])
      | .ok deps =>
        match install_deps ext lang deps with
        | (.error e, evI) => some (.error e, env, .resolveDeps lang code :: evI)
        | (.ok _, evI) =>
          match execute_with_deps ext lang code with
          | (.error e, evE) => some (.error e, env, .resolveDeps lang code :: evI ++ evE)
          | (.ok out, evE) =>
            some (.ok (), { env with artifact_cache := upsert hash out env.artifact_cache },
                  .resolveDeps lang code :: evI ++ evE)
  | .task name body => some (.ok (), { env with tasks := upsert name body env.tasks }, [])
  | .target lang => some (.ok (), { env with target_lang := some lang }, [])
  | .deploy target config =>
    let artifact := compile_rift env
    let compressed := compress_artifact artifact
    let r := deployRun ext target compressed config
    some (r.1, env, r.2)
  | .letS name value =>
    match evaluate_expression value env with
    | .error e => some (.error e, env, [])
    | .ok v => some (.ok (), { env with vars := upsert name v env.vars }, [])
  | .call name args =>
    if name = "optimize" then
      match args.head? with
      | none => some (.error "Missing code to optimize", env, [])
      | some a =>
        match optimize_code a env with
        | .error e => some (.error e, env, [])
        | .ok env' => some (.ok (), env', [])
    else
      match lookupA name env.rifts with
      | some body => self (.program body) env
      | none =>
        match lookupA name env.tasks with
        | some body => self (.program body) env
        | none => some (.error ("Unknown call target: " ++ name), env, [])
  | .ifS cond thenBody elseBody =>
    match evaluate_condition cond env with
    | .error e => some (.error e, env, [])
    | .ok true => self (.program thenBody) env
    | .ok false => self (.program elseBody) env
  | .whileS cond body => whileAux (fun e => self (.program body) e) cond 0 env
  | .number _ => some (.error "Unsupported operation", env, [])
  | .string _ => some (.error "Unsupported operation", env, [])
  | .identifier _ => some (.error "Unsupported operation", env, [])

/-- The step-indexed interpreter: each recursion into a subtree costs one
unit of fuel. -/
def interpret (ext : Ext) : Nat → AST → Env → Option IResult
  | 0, _, _ => none
  | fuel + 1, ast, env => interpStep ext (interpret ext fuel) ast env

/-- The body of a `While` executed exactly `m` successive times by the
runner `run`: each pass interprets the body successfully, threading the
(possibly mutated) environment from pass to pass, and the combined trace
is the concatenation, pass by pass, of one `whileBody` marker followed by
that pass's own trace. -/
def bodyIterates (run : Env → Option IResult) : Nat → Env → Env → List Event → Prop
  | 0, e, e', evs => e' = e ∧ evs = []
  | m + 1, e, e', evs =>
    ∃ e1 t1 rest, run e = some (.ok (), e1, t1) ∧
      bodyIterates run m e1 e' rest ∧ evs = (.whileBody :: t1) ++ rest

/-! ## Concrete fixtures used by witnesses and counterexamples -/

/-- An oracle whose ethereum client call fails on the first two attempts
(indices 0 and 1) and would succeed from the third on. -/
def extFlaky : Ext :=
  { extUnit with sinkCall := fun _ k => if k ≥ 2 then .ok () else .error "connection reset" }

/-- An environment holding a cached artifact for the snippet `"c"`. -/
def envCached : Env := ⟨[], [], [], [(fuseKey "python" "c", "out")], none⟩

/-- An environment with one rift whose single snippet is cached. -/
def envPayload : Env :=
  ⟨[], [("r", [.fuse "python" "p"])], [], [(fuseKey "python" "p", "OUT")], none⟩

/-- An environment with a rift and a task of the same name. -/
def envShadow : Env := ⟨[], [("x", [])], [("x", [.number 1])], [], none⟩

/-- An environment binding the variable `y`. -/
def envVarY : Env := ⟨[("y", .number 7)], [], [], [], none⟩

/-- An environment holding the rift used by the optimize counterexample. -/
def envRuby : Env := ⟨[], [("r", [.fuse "ruby" "x"])], [], [], none⟩

/-! ## Helper lemmas -/

theorem lookupA_upsert_self {α : Type} (k : String) (v : α) (l : List (String × α)) :
    lookupA k (upsert k v l) = some v := by
  induction l with
  | nil => simp [upsert, lookupA]
  | cons p rest ih =>
    by_cases h : k = p.1
    · simp [upsert, lookupA, h]
    · simp [upsert, lookupA, h, ih]

theorem lookupA_upsert_ne {α : Type} (k k' : String) (v : α) (l : List (String × α))
    (h : k' ≠ k) : lookupA k' (upsert k v l) = lookupA k' l := by
  induction l with
  | nil => simp [upsert, lookupA, h]
  | cons p rest ih =>
    by_cases hk : k = p.1
    · subst hk
      simp [upsert, lookupA, h]
    · simp [upsert, lookupA, hk, ih]

theorem toHexFixed_length (w : Nat) : ∀ n, (toHexFixed w n).length = w := by
  induction w with
  | zero => intro n; rfl
  | succ w ih => intro n; simp [toHexFixed, ih]

theorem flatten_map_hex_length (ws : List Nat) :
    ((ws.map (toHexFixed 8)).flatten).length = 8 * ws.length := by
  induction ws with
  | nil => rfl
  | cons x xs ih => simp [List.map, List.flatten, toHexFixed_length, ih]; ring

theorem sha256Words_length (m : List Nat) : (sha256Words m).length = 8 := rfl

theorem sha256hex_length (s : String) : (sha256hex s).length = 64 := by
  show (((sha256Words (utf8Bytes s)).map (toHexFixed 8)).flatten).length = 64
  rw [flatten_map_hex_length, sha256Words_length]

/-! ## Claim theorems -/

/-- C8: for every pair of `Fuse` nodes with identical code text, the
artifact-cache key is identical regardless of the declared language tags
(the key is a function of the snippet text only), and it is a 256-bit
digest: 64 lowercase hex characters. -/
theorem fuseKey_ignores_language :
    (∀ lang1 lang2 code, fuseKey lang1 code = fuseKey lang2 code) ∧
    (∀ lang code, (fuseKey lang code).length = 64) := by
  constructor
  · intro lang1 lang2 code
    rfl
  · intro lang code
    exact sha256hex_length code

/-- C9: `Let(name, expr)` stores a `Number` or `String` literal under
`name`, resolves an `Identifier` through `env.variables` (storing the
bound value, or failing with the variable-not-found error and storing
nothing), and rejects every other expression shape. -/
theorem let_evaluates_expression :
    (∀ ext fuel name (n : Int) env,
      interpret ext (fuel + 1) (.letS name (.number n)) env =
        some (.ok (), { env with vars := upsert name (.number n) env.vars }, [])) ∧
    (∀ ext fuel name s env,
      interpret ext (fuel + 1) (.letS name (.string s)) env =
        some (.ok (), { env with vars := upsert name (.string s) env.vars }, [])) ∧
    (∀ ext fuel name id env v, lookupA id env.vars = some v →
      interpret ext (fuel + 1) (.letS name (.identifier id)) env =
        some (.ok (), { env with vars := upsert name v env.vars }, [])) ∧
    (∀ ext fuel name id env, lookupA id env.vars = none →
      interpret ext (fuel + 1) (.letS name (.identifier id)) env =
        some (.error ("Variable \x27" ++ id ++ "\x27 not found"), env, [])) ∧
    (∀ ext fuel name expr env,
      (∀ n : Int, expr ≠ .number n) → (∀ s, expr ≠ .string s) →
      (∀ i, expr ≠ .identifier i) →
      interpret ext (fuel + 1) (.letS name expr) env =
        some (.error "Invalid expression", env, [])) := by
  refine ⟨fun ext fuel name n env => rfl, fun ext fuel name s env => rfl, ?_, ?_, ?_⟩
  · intro ext fuel name id env v h
    simp [interpret, interpStep, evaluate_expression, h]
  · intro ext fuel name id env h
    simp [interpret, interpStep, evaluate_expression, h]
  · intro ext fuel name expr env h1 h2 h3
    cases expr with
    | number n => exact absurd rfl (h1 n)
    | string s => exact absurd rfl (h2 s)
    | identifier i => exact absurd rfl (h3 i)
    | program nodes => rfl
    | rift a b => rfl
    | fuse a b => rfl
    | task a b => rfl
    | target a => rfl
    | deploy a b => rfl
    | letS a b => rfl
    | call a b => rfl
    | ifS a b c => rfl
    | whileS a b => rfl

/-- Witness for C9: a concrete `Let` of a bound identifier stores the
bound value. -/
theorem let_evaluates_expression_witness :
    lookupA "y" envVarY.vars = some (.number 7) ∧
    interpret extUnit 1 (.letS "x" (.identifier "y")) envVarY =
      some (.ok (), { envVarY with vars := upsert "x" (.number 7) envVarY.vars }, []) :=
  ⟨by simp [envVarY, lookupA],
   let_evaluates_expression.2.2.1 extUnit 0 "x" "y" envVarY (.number 7)
     (by simp [envVarY, lookupA])⟩

/-- C1: a cache hit is authoritative.  If the content hash of a
`Fuse(lang, code)` node is in the artifact cache, `interpret` succeeds
with the environment unchanged and an empty trace — no dependency
resolution, no installation, no sandbox execution.  Consequently a second
`Fuse` with code identical to an earlier successful `Fuse` (any language
tags) succeeds without re-invoking any external adapter. -/
theorem fuse_cache_hit_authoritative :
    (∀ ext fuel lang code env out,
      lookupA (fuseKey lang code) env.artifact_cache = some out →
      interpret ext (fuel + 1) (.fuse lang code) env = some (.ok (), env, [])) ∧
    (∀ ext fuel fuel2 lang lang2 code env env2 evs,
      interpret ext (fuel + 1) (.fuse lang code) env = some (.ok (), env2, evs) →
      interpret ext (fuel2 + 1) (.fuse lang2 code) env2 = some (.ok (), env2, [])) := by
  have part1 : ∀ (ext : Ext) (fuel : Nat) lang code env out,
      lookupA (fuseKey lang code) env.artifact_cache = some out →
      interpret ext (fuel + 1) (.fuse lang code) env = some (.ok (), env, []) := by
    intro ext fuel lang code env out h
    simp [interpret, interpStep, h]
  refine ⟨part1, ?_⟩
  intro ext fuel fuel2 lang lang2 code env env2 evs h
  have hc : ∃ out, lookupA (fuseKey lang2 code) env2.artifact_cache = some out := by
    simp only [interpret, interpStep] at h
    split at h
    · rename_i out hl
      simp only [Option.some.injEq, Prod.mk.injEq] at h
      obtain ⟨-, henv, -⟩ := h
      exact ⟨out, henv ▸ hl⟩
    · rename_i hl
      split at h
      · simp at h
      · rename_i deps hres
        split at h
        · simp at h
        · rename_i uI evI hinst
          split at h
          · simp at h
          · rename_i out evE hexec
            simp only [Option.some.injEq, Prod.mk.injEq] at h
            obtain ⟨-, henv, -⟩ := h
            exact ⟨out, henv ▸ lookupA_upsert_self (fuseKey lang code) out env.artifact_cache⟩
  obtain ⟨out, hout⟩ := hc
  exact part1 ext fuel2 lang2 code env2 out hout

/-- Witness for C1: interpreting a `Fuse` whose snippet is already cached
succeeds with an empty trace and an unchanged environment. -/
theorem fuse_cache_hit_authoritative_witness :
    lookupA (fuseKey "python" "c") envCached.artifact_cache = some "out" ∧
    interpret extUnit 1 (.fuse "python" "c") envCached = some (.ok (), envCached, []) :=
  ⟨by simp [envCached, lookupA],
   fuse_cache_hit_authoritative.1 extUnit 0 "python" "c" envCached "out"
     (by simp [envCached, lookupA])⟩

/-- C10: a `Fuse("rust", code)` node with a cold cache always fails with
the unsupported-language error from the dependency resolver (which has no
rust adapter), before any installation or sandbox execution: the trace
holds exactly the resolver call. -/
theorem fuse_rust_cold_cache_unsupported :
    ∀ ext fuel code env,
      lookupA (fuseKey "rust" code) env.artifact_cache = none →
      interpret ext (fuel + 1) (.fuse "rust" code) env =
        some (.error "Unsupported language: rust", env, [.resolveDeps "rust" code]) := by
  intro ext fuel code env h
  have hA : hasAdapter "rust" = false := by decide
  simp [interpret, interpStep, h, resolve_deps, hA]

/-- Witness for C10: a concrete rust snippet on the empty cache fails
with the unsupported-language error. -/
theorem fuse_rust_cold_cache_unsupported_witness :
    lookupA (fuseKey "rust" "fn main() \x7b\x7d") envEmpty.artifact_cache = none ∧
    interpret extUnit 1 (.fuse "rust" "fn main() \x7b\x7d") envEmpty =
      some (.error "Unsupported language: rust", envEmpty,
            [.resolveDeps "rust" "fn main() \x7b\x7d"]) :=
  ⟨rfl, fuse_rust_cold_cache_unsupported extUnit 0 "fn main() \x7b\x7d" envEmpty rfl⟩

/-- C6: `Call(name, args)` with `name` other than `"optimize"` dispatches
to the rift of that name when one exists (even when a task of the same
name exists: rifts take precedence), else to the task, and otherwise
fails with the function-not-found error (`"Unknown call target"` in the
source). -/
theorem call_dispatch_precedence :
    (∀ ext fuel name args env body, name ≠ "optimize" →
      lookupA name env.rifts = some body →
      interpret ext (fuel + 1) (.call name args) env =
        interpret ext fuel (.program body) env) ∧
    (∀ ext fuel name args env body, name ≠ "optimize" →
      lookupA name env.rifts = none → lookupA name env.tasks = some body →
      interpret ext (fuel + 1) (.call name args) env =
        interpret ext fuel (.program body) env) ∧
    (∀ ext fuel name args env, name ≠ "optimize" →
      lookupA name env.rifts = none → lookupA name env.tasks = none →
      interpret ext (fuel + 1) (.call name args) env =
        some (.error ("Unknown call target: " ++ name), env, [])) := by
  refine ⟨?_, ?_, ?_⟩
  · intro ext fuel name args env body hopt hr
    simp [interpret, interpStep, hopt, hr]
  · intro ext fuel name args env body hopt hr ht
    simp [interpret, interpStep, hopt, hr, ht]
  · intro ext fuel name args env hopt hr ht
    simp [interpret, interpStep, hopt, hr, ht]

/-- Witness for C6: calling `x` where both a rift and a task named `x`
exist runs the (empty) rift body and succeeds. -/
theorem call_dispatch_precedence_witness :
    interpret extUnit 2 (.call "x" []) envShadow = some (.ok (), envShadow, []) := by
  have h := call_dispatch_precedence.1 extUnit 1 "x" [] envShadow [] (by decide)
    (by simp [envShadow, lookupA])
  rw [h]
  rfl

/-- The `While` loop with an always-true numeric condition and a body
that succeeds with no trace and no environment change: starting from
iteration counter `k` (with `k + m = 10000`), the loop runs the body
`m + 1` more times and then fails with the iteration-limit error — the
counter check `iterations > 10000` fires only after the 10001st pass. -/
theorem whileAux_true_count (runBody : Env → Option IResult) (n : Int) (hn : n ≠ 0)
    (H : ∀ e, runBody e = some (.ok (), e, [])) :
    ∀ m k env, k + m = 10000 →
      whileAux runBody (.number n) k env =
        some (.error "Max iterations exceeded", env, List.replicate (m + 1) .whileBody) := by
  have hb : (n != 0) = true := by
    simpa [bne_iff_ne] using hn
  intro m
  induction m with
  | zero =>
    intro k env hk
    have hgt : k + 1 > 10000 := by omega
    rw [whileAux]
    simp [evaluate_condition, hb, H env, hgt]
  | succ m ih =>
    intro k env hk
    have hle : ¬(k + 1 > 10000) := by omega
    have hrec := ih (k + 1) env (by omega)
    rw [whileAux]
    simp [evaluate_condition, hb, H env, hle, hrec, List.replicate_succ]

/-- The `While` loop with an always-true numeric condition and a body
whose interpretation always succeeds (with arbitrary environment changes
and arbitrary traces): starting from iteration counter `k` (with
`k + m = 10000`), the loop runs the body exactly `m + 1` more successive
times — exhibited as a `bodyIterates` chain — and then fails with the
iteration-limit error, ending in the 10001st pass's environment with the
concatenated trace. -/
theorem whileAux_true_iterates (runBody : Env → Option IResult) (n : Int) (hn : n ≠ 0)
    (H : ∀ e, ∃ e' evs, runBody e = some (.ok (), e', evs)) :
    ∀ m k env, k + m = 10000 →
      ∃ env' evs, bodyIterates runBody (m + 1) env env' evs ∧
        whileAux runBody (.number n) k env =
          some (.error "Max iterations exceeded", env', evs) := by
  have hb : (n != 0) = true := by
    simpa [bne_iff_ne] using hn
  intro m
  induction m with
  | zero =>
    intro k env hk
    obtain ⟨e', t, ht⟩ := H env
    have hgt : k + 1 > 10000 := by omega
    refine ⟨e', .whileBody :: t, ⟨e', t, [], ht, ⟨rfl, rfl⟩, by simp⟩, ?_⟩
    rw [whileAux]
    simp [evaluate_condition, hb, ht, hgt]
  | succ m ih =>
    intro k env hk
    obtain ⟨e1, t1, ht1⟩ := H env
    obtain ⟨env', rest, hbody, haux⟩ := ih (k + 1) e1 (by omega)
    have hle : ¬(k + 1 > 10000) := by omega
    refine ⟨env', .whileBody :: t1 ++ rest, ⟨e1, t1, rest, ht1, hbody, by simp⟩, ?_⟩
    rw [whileAux]
    simp [evaluate_condition, hb, ht1, hle, haux]

/-- C2 (amended): a `While` whose condition is a nonzero number literal
and whose body always succeeds executes the body exactly 10001 successive
times — not 10000 — and then fails with the iteration-limit error
(`"Max iterations exceeded"`), ending in the environment the 10001st
pass produced: the `iterations` counter is incremented after each pass
and tested with a strict `> 10000`, so the failing test happens only
after the 10001st pass has already run.  The 10001 passes are exhibited
as a `bodyIterates` chain threading the environment, so bodies that
mutate the environment or emit events are covered. -/
theorem while_limit_10001 :
    ∀ ext fuel (n : Int) body env, n ≠ 0 →
      (∀ e, ∃ e' evs, interpret ext fuel (.program body) e = some (.ok (), e', evs)) →
      ∃ env' evs,
        bodyIterates (fun e => interpret ext fuel (.program body) e) 10001 env env' evs ∧
        interpret ext (fuel + 1) (.whileS (.number n) body) env =
          some (.error "Max iterations exceeded", env', evs) := by
  intro ext fuel n body env hn H
  exact whileAux_true_iterates (fun e => interpret ext fuel (.program body) e) n hn H
    10000 0 env (by omega)

/-- Witness for the amended C2 at a concrete loop whose body is an
ordinary environment-mutating statement, `let x = 1`. -/
theorem while_limit_10001_witness :
    (1 : Int) ≠ 0 ∧
    (∃ env' evs,
      bodyIterates (fun e => interpret extUnit 2 (.program [.letS "x" (.number 1)]) e)
        10001 envEmpty env' evs ∧
      interpret extUnit 3 (.whileS (.number 1) [.letS "x" (.number 1)]) envEmpty =
        some (.error "Max iterations exceeded", env', evs)) :=
  ⟨by decide,
   while_limit_10001 extUnit 2 1 [.letS "x" (.number 1)] envEmpty (by decide)
     (fun e => ⟨_, _, rfl⟩)⟩

/-- Counterexample to C2 as stated: an always-true `While` over an empty
body fails with the iteration-limit error only after 10001 body passes
(the trace holds 10001 `whileBody` events), so the body is executed more
than the claimed 10000 times. -/
theorem while_limit_counterexample :
    interpret extUnit 2 (.whileS (.number 1) []) envEmpty =
      some (.error "Max iterations exceeded", envEmpty, List.replicate 10001 .whileBody) ∧
    (List.replicate 10001 Event.whileBody).length ≠ 10000 := by
  constructor
  · have h := whileAux_true_count (fun e => interpret extUnit 1 (.program []) e) 1
      (by decide) (fun e => rfl) 10000 0 envEmpty (by omega)
    exact h
  · rw [List.length_replicate]
    omega

theorem attempted_cons_deploy (t : String) (l : List Event) :
    attempted (.deployAttempt t :: l) = t :: attempted l := by
  simp [attempted]

theorem attempted_append (l1 l2 : List Event) :
    attempted (l1 ++ l2) = attempted l1 ++ attempted l2 := by
  simp [attempted]

/-- One sink's own trace holds only client calls, never a `deployAttempt`
marker. -/
theorem deployToTarget_attempted (ext : Ext) (t a : String) (cfg : List (String × String)) :
    attempted (deploy_to_target ext t a cfg).2 = [] := by
  unfold deploy_to_target
  repeat' split
  all_goals rfl

/-- The sinks marked attempted by a fan-out are exactly the sinks it was
given, in order. -/
theorem runDeploys_attempted (ext : Ext) (a : String) (cfg : List (String × String)) :
    ∀ l, attempted (runDeploys ext a cfg l).2 = l := by
  intro l
  induction l with
  | nil => rfl
  | cons t rest ih =>
    simp only [runDeploys]
    rw [attempted_append, attempted_cons_deploy, deployToTarget_attempted, ih]
    rfl

/-- C3: the `Deploy` arm compiles and compresses the payload and fans out
to exactly the selected sinks: all four for selector `"all"`, otherwise
exactly the sinks whose name is a substring of the selector; in
particular `"all"` attempts all four sinks and `"aws"` attempts only the
`aws` sink. -/
theorem deploy_selection :
    (∀ ext fuel env target config,
      interpret ext (fuel + 1) (.deploy target config) env =
        some ((deployRun ext target (compress_artifact (compile_rift env)) config).1, env,
              (deployRun ext target (compress_artifact (compile_rift env)) config).2)) ∧
    (∀ ext artifact config target,
      attempted (deployRun ext target artifact config).2 = selectedSinks target) ∧
    selectedSinks "all" = ["ethereum", "solana", "aws", "local"] ∧
    selectedSinks "aws" = ["aws"] := by
  refine ⟨fun ext fuel env target config => rfl, ?_, ?_, ?_⟩
  · intro ext artifact config target
    exact runDeploys_attempted ext artifact config (selectedSinks target)
  · decide
  · decide

/-- C4: evaluation of `deploy_to_target` at the claim's own scenario — an
ethereum sink whose client call fails on the first two attempts and would
succeed from the third — shows the source performs a single attempt and
fails immediately: every arm of its `loop` breaks or returns early, so
the retry counter and backoff at interpreter.rs lines 320-322 are dead
code, contradicting the in-source "Exponential backoff" comment and the
"failed after retries" error message. -/
theorem deploy_no_retry_eval :
    deploy_to_target extFlaky "ethereum" "artifact"
        [("api_key", "key"), ("contract", "0xabc")] =
      (.error "Ethereum connection failed: connection reset", [.clientCall "ethereum" 0]) ∧
    extFlaky.sinkCall "ethereum" 2 = .ok () :=
  ⟨rfl, rfl⟩

/-- The optimized rift's name never collides with the original's. -/
theorem optimized_prefix_ne (name : String) : "optimized_" ++ name ≠ name := by
  intro h
  have hlen := congrArg String.length h
  rw [String.length_append] at hlen
  have h10 : ("optimized_" : String).length = 10 := rfl
  omega

/-- C5 (amended): `Call("optimize", [Rift(name, body)])` stores under
`"optimized_" + name` the body rewritten child by child — a `Fuse` child
whose language has an adapter is replaced by `Fuse(targetLang,
translated)` when the language pair has a mapping and kept unchanged when
it has none, a non-`Fuse` child is kept unchanged, but a `Fuse` child
whose language has NO tree-sitter adapter is dropped from the optimized
body — and the original rift's entry is left unmodified. -/
theorem optimize_rewrites_body :
    (∀ ext fuel name body rest env,
      interpret ext (fuel + 1) (.call "optimize" (.rift name body :: rest)) env =
        some (.ok (), { env with rifts := upsert ("optimized_" ++ name) (optimizeBody (env.target_lang.getD "rust") body) env.rifts }, [])) ∧
    (∀ ext fuel name body rest env env2 evs,
      interpret ext (fuel + 1) (.call "optimize" (.rift name body :: rest)) env =
        some (.ok (), env2, evs) →
      lookupA ("optimized_" ++ name) env2.rifts =
        some (optimizeBody (env.target_lang.getD "rust") body) ∧
      lookupA name env2.rifts = lookupA name env.rifts) ∧
    (∀ tl lang code rest s, hasAdapter lang = true → transformFor lang tl code = some s →
      optimizeBody tl (.fuse lang code :: rest) = .fuse tl s :: optimizeBody tl rest) ∧
    (∀ tl lang code rest, hasAdapter lang = true → transformFor lang tl code = none →
      optimizeBody tl (.fuse lang code :: rest) = .fuse lang code :: optimizeBody tl rest) ∧
    (∀ tl lang code rest, hasAdapter lang = false →
      optimizeBody tl (.fuse lang code :: rest) = optimizeBody tl rest) ∧
    (∀ tl node rest, (∀ l c, node ≠ .fuse l c) →
      optimizeBody tl (node :: rest) = node :: optimizeBody tl rest) := by
  have part1 : ∀ (ext : Ext) (fuel : Nat) name body rest env,
      interpret ext (fuel + 1) (.call "optimize" (.rift name body :: rest)) env =
        some (.ok (), { env with rifts := upsert ("optimized_" ++ name) (optimizeBody (env.target_lang.getD "rust") body) env.rifts }, []) := by
    intro ext fuel name body rest env
    rfl
  refine ⟨part1, ?_, ?_, ?_, ?_, ?_⟩
  · intro ext fuel name body rest env env2 evs h
    rw [part1 ext fuel name body rest env] at h
    simp only [Option.some.injEq, Prod.mk.injEq] at h
    obtain ⟨-, henv, -⟩ := h
    subst henv
    exact ⟨lookupA_upsert_self _ _ _,
           lookupA_upsert_ne _ _ _ _ (fun hcontra => optimized_prefix_ne name hcontra.symm)⟩
  · intro tl lang code rest s hA hT
    simp [optimizeBody, hA, hT]
  · intro tl lang code rest hA hT
    simp [optimizeBody, hA, hT]
  · intro tl lang code rest hA
    simp [optimizeBody, hA]
  · intro tl node rest hn
    cases node with
    | fuse l c => exact absurd rfl (hn l c)
    | program a => rfl
    | rift a b => rfl
    | task a b => rfl
    | target a => rfl
    | deploy a b => rfl
    | letS a b => rfl
    | call a b => rfl
    | ifS a b c => rfl
    | whileS a b => rfl
    | number a => rfl
    | string a => rfl
    | identifier a => rfl

/-- Witness for the amended C5: a `php` snippet with target `rust` (the
default) is replaced by the translated `rust` snippet, stored under the
`optimized_` name. -/
theorem optimize_rewrites_body_witness :
    hasAdapter "php" = true ∧
    transformFor "php" "rust" "x" = some (transform_php_to_rust "x") ∧
    optimizeBody "rust" [.fuse "php" "x"] = [.fuse "rust" (transform_php_to_rust "x")] ∧
    interpret extUnit 1 (.call "optimize" [.rift "m" [.fuse "php" "x"]]) envEmpty =
      some (.ok (), { envEmpty with rifts := upsert ("optimized_" ++ "m") (optimizeBody "rust" [.fuse "php" "x"]) envEmpty.rifts }, []) := by
  refine ⟨by decide, rfl, ?_, ?_⟩
  · rw [optimize_rewrites_body.2.2.1 "rust" "php" "x" [] (transform_php_to_rust "x")
      (by decide) rfl]
    rfl
  · exact optimize_rewrites_body.1 extUnit 0 "m" [.fuse "php" "x"] [] envEmpty

/-- Counterexample to C5 as stated: optimizing a rift whose single child
is a `Fuse` in a language with no registered adapter (`"ruby"`, which
also has no mapping) stores an optimized rift with an empty body: the
child is dropped rather than kept unchanged. -/
theorem optimize_drops_unadapted_counterexample :
    interpret extUnit 1 (.call "optimize" [.rift "r" [.fuse "ruby" "x"]]) envRuby =
      some (.ok (), { envRuby with rifts := upsert "optimized_r" [] envRuby.rifts }, []) ∧
    ([] : List AST) ≠ [.fuse "ruby" "x"] := by
  constructor
  · rfl
  · simp

theorem fuse_fold_inner (cache : List (String × String)) :
    ∀ (body : List AST) (acc : List String),
      body.foldl
        (fun acc2 node =>
          match node with
          | AST.fuse lang code => acc2 ++ [renderFuse cache lang code]
          | _ => acc2) acc =
      acc ++ body.filterMap
        (fun node =>
          match node with
          | AST.fuse lang code => some (renderFuse cache lang code)
          | _ => none) := by
  intro body
  induction body with
  | nil => intro acc; simp
  | cons node rest ih =>
    intro acc
    cases node <;> simp [List.foldl_cons, List.filterMap_cons, ih]

theorem fuse_fold_outer (cache : List (String × String)) :
    ∀ (rifts : List (String × List AST)) (acc : List String),
      rifts.foldl
        (fun acc p =>
          p.2.foldl
            (fun acc2 node =>
              match node with
              | AST.fuse lang code => acc2 ++ [renderFuse cache lang code]
              | _ => acc2) acc) acc =
      acc ++ (rifts.map
        (fun p => p.2.filterMap
          (fun node =>
            match node with
            | AST.fuse lang code => some (renderFuse cache lang code)
            | _ => none))).flatten := by
  intro rifts
  induction rifts with
  | nil => intro acc; simp
  | cons p rest ih =>
    intro acc
    simp only [List.foldl_cons, List.map_cons, List.flatten_cons]
    rw [fuse_fold_inner, ih]
    simp

/-- C7 (amended): the deployment payload is the newline-joined rendering
of every `Fuse` snippet across every stored rift in rift iteration order,
where each snippet renders as its cached output when its content hash is
in the artifact cache and as `language: code` otherwise (`renderFuse`):
the source's accumulating `compile_rift` equals that specification. -/
theorem compile_rift_refines_spec : ∀ env, compile_rift env = compileRiftSpec env := by
  intro env
  unfold compile_rift compileRiftSpec
  rw [fuse_fold_outer]
  rfl

/-- Counterexample to C7 as stated: an environment whose single snippet
is cached yields the cached output `"OUT"` as the payload, not the
claimed rendering `"python: p"`. -/
theorem payload_renders_cached_counterexample :
    compile_rift envPayload = "OUT" ∧ "OUT" ≠ "python: p" := by
  constructor
  · unfold compile_rift envPayload
    simp only [List.foldl_cons, List.foldl_nil, renderFuse, lookupA]
    simp only [String.intercalate, String.intercalate.go]
    rfl
  · decide

end RiftLang
